import Mathlib

/-!
Verification development for the CHARLY property-tax appeal core engine
(`packages/core-engine/charly_core_engine`): the confidence-band calculator
(`confidence.py`), the jurisdiction priors record (`jurisdiction.py`) and the
appeal decision engine (`decision.py`).

Python `Decimal` values are modelled as exact rationals (`ℚ`).  The explicit
`quantize` roundings of the source (`ROUND_HALF_UP` at 2 or 3 decimal places)
are modelled by `quantize2` / `quantize3`; `Decimal` context arithmetic at 28
significant digits is modelled as exact rational arithmetic, and
`Decimal.sqrt` by `ratSqrt`, a fixed-point square-root approximation at 28
fractional digits.
-/

namespace Charly

/-- Rounding to an integer with `ROUND_HALF_UP` semantics: round to the
nearest integer, ties away from zero (Python `decimal.ROUND_HALF_UP`). -/
def roundHalfUp (x : ℚ) : ℤ :=
  if 0 ≤ x then ⌊x + 1/2⌋ else -⌊-x + 1/2⌋

/-- Model of `value.quantize(Decimal('0.01'), rounding=ROUND_HALF_UP)`
(`round_currency` in confidence.py and decision.py, `round_percentage` in
decision.py). -/
def quantize2 (q : ℚ) : ℚ := (roundHalfUp (q * 100) : ℚ) / 100

/-- Model of `value.quantize(Decimal('0.001'), rounding=ROUND_HALF_UP)`
(`round_percentage` in confidence.py). -/
def quantize3 (q : ℚ) : ℚ := (roundHalfUp (q * 1000) : ℚ) / 1000

theorem roundHalfUp_mono {x y : ℚ} (h : x ≤ y) : roundHalfUp x ≤ roundHalfUp y := by
  unfold roundHalfUp
  by_cases hx : 0 ≤ x
  · rw [if_pos hx, if_pos (le_trans hx h)]
    exact Int.floor_mono (by linarith)
  · rw [if_neg hx]
    by_cases hy : 0 ≤ y
    · rw [if_pos hy]
      have h1 : (0:ℤ) ≤ ⌊-x + 1/2⌋ := Int.floor_nonneg.mpr (by push_neg at hx; linarith)
      have h2 : (0:ℤ) ≤ ⌊y + 1/2⌋ := Int.floor_nonneg.mpr (by linarith)
      omega
    · rw [if_neg hy]
      have h3 : ⌊-y + 1/2⌋ ≤ ⌊-x + 1/2⌋ := Int.floor_mono (by linarith)
      omega

theorem roundHalfUp_lt {x y : ℚ} (hx : 0 ≤ x) (h : x + 1 ≤ y) :
    roundHalfUp x < roundHalfUp y := by
  unfold roundHalfUp
  rw [if_pos hx, if_pos (by linarith)]
  have h1 : ⌊x + 1/2 + 1⌋ = ⌊x + 1/2⌋ + 1 := Int.floor_add_one _
  have h2 : ⌊x + 1/2 + 1⌋ ≤ ⌊y + 1/2⌋ := Int.floor_mono (by linarith)
  omega

theorem quantize2_mono {x y : ℚ} (h : x ≤ y) : quantize2 x ≤ quantize2 y := by
  unfold quantize2
  have h1 : roundHalfUp (x * 100) ≤ roundHalfUp (y * 100) :=
    roundHalfUp_mono (by linarith)
  have h2 : ((roundHalfUp (x * 100) : ℤ) : ℚ) ≤ ((roundHalfUp (y * 100) : ℤ) : ℚ) := by
    exact_mod_cast h1
  linarith

theorem quantize3_mono {x y : ℚ} (h : x ≤ y) : quantize3 x ≤ quantize3 y := by
  unfold quantize3
  have h1 : roundHalfUp (x * 1000) ≤ roundHalfUp (y * 1000) :=
    roundHalfUp_mono (by linarith)
  have h2 : ((roundHalfUp (x * 1000) : ℤ) : ℚ) ≤ ((roundHalfUp (y * 1000) : ℤ) : ℚ) := by
    exact_mod_cast h1
  linarith

theorem quantize2_lt {x y : ℚ} (hx : 0 ≤ x) (h : x + 1/100 ≤ y) :
    quantize2 x < quantize2 y := by
  unfold quantize2
  have h1 : roundHalfUp (x * 100) < roundHalfUp (y * 100) :=
    roundHalfUp_lt (by linarith) (by linarith)
  have h2 : ((roundHalfUp (x * 100) : ℤ) : ℚ) < ((roundHalfUp (y * 100) : ℤ) : ℚ) := by
    exact_mod_cast h1
  linarith

theorem roundHalfUp_eq_of {x : ℚ} {n : ℤ} (h0 : 0 ≤ x) (h1 : (n:ℚ) ≤ x + 1/2)
    (h2 : x + 1/2 < n + 1) : roundHalfUp x = n := by
  unfold roundHalfUp
  rw [if_pos h0]
  exact Int.floor_eq_iff.mpr ⟨h1, by linarith⟩

theorem roundHalfUp_eq_of_neg {x : ℚ} {n : ℤ} (h0 : ¬ 0 ≤ x) (h1 : (n:ℚ) ≤ -x + 1/2)
    (h2 : -x + 1/2 < n + 1) : roundHalfUp x = -n := by
  unfold roundHalfUp
  rw [if_neg h0]
  have h3 : ⌊-x + 1/2⌋ = n := Int.floor_eq_iff.mpr ⟨h1, by linarith⟩
  omega

theorem quantize2_eq_of {q r : ℚ} {n : ℤ} (h0 : 0 ≤ q) (h1 : (n:ℚ) ≤ q * 100 + 1/2)
    (h2 : q * 100 + 1/2 < n + 1) (hr : (n:ℚ) / 100 = r) : quantize2 q = r := by
  unfold quantize2
  rw [roundHalfUp_eq_of (by linarith) h1 h2, hr]

theorem quantize2_eq_of_neg {q r : ℚ} {n : ℤ} (h0 : ¬ 0 ≤ q) (h1 : (n:ℚ) ≤ -(q * 100) + 1/2)
    (h2 : -(q * 100) + 1/2 < n + 1) (hr : -(n:ℚ) / 100 = r) : quantize2 q = r := by
  unfold quantize2
  have h0' : ¬ 0 ≤ q * 100 := by push_neg at h0 ⊢; linarith
  rw [roundHalfUp_eq_of_neg h0' h1 h2, ← hr]
  push_cast
  ring

theorem quantize3_eq_of {q r : ℚ} {n : ℤ} (h0 : 0 ≤ q) (h1 : (n:ℚ) ≤ q * 1000 + 1/2)
    (h2 : q * 1000 + 1/2 < n + 1) (hr : (n:ℚ) / 1000 = r) : quantize3 q = r := by
  unfold quantize3
  rw [roundHalfUp_eq_of (by linarith) h1 h2, hr]

theorem quantize2_zero : quantize2 0 = 0 :=
  quantize2_eq_of (by norm_num) (n := 0) (by norm_num) (by norm_num) (by norm_num)

theorem quantize2_neg_of_le {x : ℚ} (h : x ≤ -(1/200)) : quantize2 x < 0 := by
  unfold quantize2
  have hneg : ¬ 0 ≤ x * 100 := by push_neg; linarith
  have h1 : (1:ℤ) ≤ ⌊-(x * 100) + 1/2⌋ := Int.le_floor.mpr (by push_cast; linarith)
  have h2 : roundHalfUp (x * 100) ≤ -1 := by
    unfold roundHalfUp
    rw [if_neg hneg]
    omega
  have h3 : ((roundHalfUp (x * 100) : ℤ) : ℚ) ≤ -1 := by exact_mod_cast h2
  linarith

/-! ## Confidence band calculator (confidence.py) -/

/-- `ValuationMethod` (confidence.py lines 9-15). -/
inductive ValuationMethod
  | sales_comparison
  | income_approach
  | cost_approach
  | automated_valuation
  | tax_assessor
  deriving DecidableEq

/-- The four market-condition tags admitted by the `market_conditions`
validator (confidence.py lines 37-42); the validator lower-cases the raw
string, so the model starts from the normalised tag. -/
inductive MarketConditions
  | stable
  | improving
  | declining
  | volatile
  deriving DecidableEq

/-- Favourability order on market conditions as stated by the spec:
stable ≤ improving ≤ declining ≤ volatile. -/
def MarketConditions.rank : MarketConditions → ℕ
  | .stable => 0
  | .improving => 1
  | .declining => 2
  | .volatile => 3

/-- `ConfidenceInput` (confidence.py lines 18-57).  The unused metadata field
`valuation_date` (an optional date string never read by the algorithm) is
omitted. -/
structure ConfidenceInput where
  estimated_market_value : ℚ
  valuation_method : ValuationMethod
  comparable_sales : List ℚ
  other_estimates : List (ℚ × ValuationMethod)
  data_quality_score : ℚ
  market_conditions : MarketConditions
  property_uniqueness : ℚ
  days_since_valuation : ℕ
  deriving DecidableEq

/-- The pydantic field constraints of `ConfidenceInput`: `gt=0` on the market
value, `ge=0, le=1` on the two scores, `ge=0, le=1095` on the age, at most 10
`other_estimates` all positive (the `validate_other_estimates` validator). -/
def ConfidenceInput.Valid (i : ConfidenceInput) : Prop :=
  0 < i.estimated_market_value ∧
  0 ≤ i.data_quality_score ∧ i.data_quality_score ≤ 1 ∧
  0 ≤ i.property_uniqueness ∧ i.property_uniqueness ≤ 1 ∧
  i.days_since_valuation ≤ 1095 ∧
  i.other_estimates.length ≤ 10 ∧
  ∀ p ∈ i.other_estimates, 0 < p.1

/-- Reliability grades. -/
inductive Grade
  | A
  | B
  | C
  | D
  deriving DecidableEq

/-- One constructor per risk-factor string template appended by
`calculate_confidence_band` (confidence.py lines 197-216). -/
inductive ConfRisk
  | lowDataQuality
  | highlyUniqueProperty
  | unstableMarket (c : MarketConditions)
  | valuationOverOneYearOld
  | limitedComparableSales
  | highEstimateDispersion
  deriving DecidableEq

/-- `ConfidenceResult` (confidence.py lines 60-83). -/
structure ConfidenceResult where
  central_estimate : ℚ
  confidence_band_pct : ℚ
  lower_bound : ℚ
  upper_bound : ℚ
  confidence_score : ℚ
  reliability_grade : Grade
  estimate_dispersion : Option ℚ
  method_consistency : ℚ
  risk_factors : List ConfRisk
  deriving DecidableEq

/-- The pydantic field constraints of `ConfidenceResult` (`ge=0, le=1` on
`confidence_score` and `method_consistency`). -/
def ConfidenceResult.Valid (r : ConfidenceResult) : Prop :=
  0 ≤ r.confidence_score ∧ r.confidence_score ≤ 1 ∧
  0 ≤ r.method_consistency ∧ r.method_consistency ≤ 1

/-- `method_bands` (confidence.py lines 107-115). -/
def methodBand : ValuationMethod → ℚ
  | .sales_comparison => 10/100
  | .income_approach => 15/100
  | .cost_approach => 20/100
  | .automated_valuation => 25/100
  | .tax_assessor => 30/100

/-- `market_adjustments` (confidence.py lines 122-129). -/
def marketAdjustment : MarketConditions → ℚ
  | .stable => 0
  | .improving => 5/100
  | .declining => 8/100
  | .volatile => 12/100

/-- `quality_adjustment` (confidence.py line 118). -/
def qualityAdjustment (i : ConfidenceInput) : ℚ :=
  (1 - i.data_quality_score) * (15/100)

/-- `uniqueness_adjustment` (confidence.py line 133). -/
def uniquenessAdjustment (i : ConfidenceInput) : ℚ :=
  i.property_uniqueness * (10/100)

/-- `age_adjustment` (confidence.py lines 137-141). -/
def ageAdjustment (i : ConfidenceInput) : ℚ :=
  if 0 < i.days_since_valuation then
    min ((i.days_since_valuation : ℚ) / 365 * (1/100)) (15/100)
  else 0

/-- Fixed-point square-root approximation standing for `Decimal.sqrt`
(correctly rounded to the 28-significant-digit context in the source):
`√q` rounded down at 28 fractional digits.  No claim depends on the exact
rounding of the square root: it only enters the dispersion adjustment, which
is a function of the estimate list alone. -/
def ratSqrt (q : ℚ) : ℚ :=
  if q ≤ 0 then 0
  else (Nat.sqrt (q.num.toNat * q.den * 10 ^ 56) : ℚ) / ((q.den : ℚ) * 10 ^ 28)

/-- `all_estimates` (confidence.py lines 144-146): the central estimate,
then the comparable sales, then the first components of `other_estimates`. -/
def allEstimates (i : ConfidenceInput) : List ℚ :=
  i.estimated_market_value :: (i.comparable_sales ++ i.other_estimates.map Prod.fst)

/-- `mean_estimate` (confidence.py line 153). -/
def meanEstimate (i : ConfidenceInput) : ℚ :=
  (allEstimates i).sum / (allEstimates i).length

/-- Population `variance` (confidence.py line 154). -/
def varianceEstimate (i : ConfidenceInput) : ℚ :=
  (((allEstimates i).map fun e => (e - meanEstimate i) ^ 2).sum) / (allEstimates i).length

/-- Coefficient of variation `cv = std_dev / mean_estimate`
(confidence.py lines 155-158). -/
def coefficientOfVariation (i : ConfidenceInput) : ℚ :=
  ratSqrt (varianceEstimate i) / meanEstimate i

/-- The dispersion analysis of confidence.py lines 148-172, bundling
`estimate_dispersion`, the band adjustment `cv * 0.5`, and
`method_consistency` (defaults `(none, 0, 1)` when fewer than two estimates
exist or the mean is not positive). -/
def dispersionInfo (i : ConfidenceInput) : Option ℚ × ℚ × ℚ :=
  if 1 < (allEstimates i).length then
    if 0 < meanEstimate i then
      (some (quantize3 (coefficientOfVariation i)),
       coefficientOfVariation i * (1/2),
       if 3/10 < coefficientOfVariation i then 3/10
       else if 1/5 < coefficientOfVariation i then 3/5
       else if 1/10 < coefficientOfVariation i then 4/5
       else 1)
    else (none, 0, 1)
  else (none, 0, 1)

/-- `adjusted_band` after all five additive adjustments
(confidence.py lines 115-141 and 161-164). -/
def adjustedBand (i : ConfidenceInput) : ℚ :=
  methodBand i.valuation_method + qualityAdjustment i +
    marketAdjustment i.market_conditions + uniquenessAdjustment i +
    ageAdjustment i + (dispersionInfo i).2.1

/-- `final_band = max(0.05, min(adjusted_band, 0.50))` (confidence.py line 175). -/
def finalBand (i : ConfidenceInput) : ℚ :=
  max (5/100) (min (adjustedBand i) (50/100))

/-- The clamped confidence score before the final 3-decimal rounding
(confidence.py lines 184-185). -/
def confidenceScorePre (i : ConfidenceInput) : ℚ :=
  max 0 (min (1 - (finalBand i - 5/100) / (45/100)) 1)

/-- Reliability grade thresholds (confidence.py lines 188-195). -/
def gradeOf (s : ℚ) : Grade :=
  if 8/10 ≤ s then .A
  else if 6/10 ≤ s then .B
  else if 4/10 ≤ s then .C
  else .D

/-- Risk-factor collection (confidence.py lines 197-216); the final check
applies Python truthiness to the optional rounded dispersion. -/
def confRiskFactors (i : ConfidenceInput) : List ConfRisk :=
  (if i.data_quality_score < 6/10 then [ConfRisk.lowDataQuality] else []) ++
  (if 7/10 < i.property_uniqueness then [ConfRisk.highlyUniqueProperty] else []) ++
  (if i.market_conditions = .declining ∨ i.market_conditions = .volatile then
    [ConfRisk.unstableMarket i.market_conditions] else []) ++
  (if 365 < i.days_since_valuation then [ConfRisk.valuationOverOneYearOld] else []) ++
  (if i.comparable_sales.length < 3 ∧ i.valuation_method = .sales_comparison then
    [ConfRisk.limitedComparableSales] else []) ++
  (match (dispersionInfo i).1 with
   | some d => if d ≠ 0 ∧ 1/4 < d then [ConfRisk.highEstimateDispersion] else []
   | none => [])

/-- `calculate_confidence_band` (confidence.py lines 86-228). -/
def calculate_confidence_band (i : ConfidenceInput) : ConfidenceResult :=
  { central_estimate := quantize2 i.estimated_market_value
    confidence_band_pct := quantize3 (finalBand i)
    lower_bound := quantize2 (i.estimated_market_value - i.estimated_market_value * finalBand i)
    upper_bound := quantize2 (i.estimated_market_value + i.estimated_market_value * finalBand i)
    confidence_score := quantize3 (confidenceScorePre i)
    reliability_grade := gradeOf (confidenceScorePre i)
    estimate_dispersion := (dispersionInfo i).1
    method_consistency := quantize3 (dispersionInfo i).2.2
    risk_factors := confRiskFactors i }

/-! ## Jurisdiction priors (jurisdiction.py) -/

/-- `JurisdictionPriors` (jurisdiction.py lines 8-47). -/
structure JurisdictionPriors where
  jurisdiction_id : String
  jurisdiction_name : String
  state : String
  appeal_success_rate : ℚ
  average_reduction_pct : ℚ
  median_reduction_pct : ℚ
  typical_filing_fee : ℚ
  typical_attorney_cost : ℚ
  average_timeline_days : ℕ
  cod_target : ℚ
  reassessment_risk_factor : ℚ
  uses_market_value : Bool
  assessment_ratio : ℚ
  last_revaluation_year : Option ℕ
  deriving DecidableEq

/-- The pydantic field constraints of `JurisdictionPriors`
(jurisdiction.py lines 16-32). -/
def JurisdictionPriors.Valid (j : JurisdictionPriors) : Prop :=
  0 ≤ j.appeal_success_rate ∧ j.appeal_success_rate ≤ 1 ∧
  0 ≤ j.average_reduction_pct ∧ j.average_reduction_pct ≤ 1 ∧
  0 ≤ j.median_reduction_pct ∧ j.median_reduction_pct ≤ 1 ∧
  0 ≤ j.typical_filing_fee ∧ 0 ≤ j.typical_attorney_cost ∧
  30 ≤ j.average_timeline_days ∧ j.average_timeline_days ≤ 730 ∧
  0 < j.cod_target ∧ j.cod_target ≤ 50/100 ∧
  0 ≤ j.reassessment_risk_factor ∧ j.reassessment_risk_factor ≤ 1 ∧
  0 < j.assessment_ratio ∧ j.assessment_ratio ≤ 1

/-! ## Decision engine (decision.py) -/

/-- `AppealDecision` (decision.py lines 12-16). -/
inductive AppealDecision
  | OVER
  | FAIR
  | UNDER
  deriving DecidableEq

/-- `DecisionInput` (decision.py lines 19-51). -/
structure DecisionInput where
  assessed_value : ℚ
  estimated_market_value : ℚ
  confidence_result : ConfidenceResult
  jurisdiction_priors : JurisdictionPriors
  tax_rate : ℚ
  estimated_filing_fee : ℚ
  estimated_attorney_fee : ℚ
  estimated_other_costs : ℚ
  min_roi_threshold : ℚ
  min_savings_threshold : ℚ
  appeal_horizon_years : ℕ
  deriving DecidableEq

/-- The pydantic field constraints of `DecisionInput`, including the
`validate_tax_rate` validator's 10% cap (decision.py lines 23-45). -/
def DecisionInput.Valid (i : DecisionInput) : Prop :=
  0 < i.assessed_value ∧ 0 < i.estimated_market_value ∧
  i.confidence_result.Valid ∧ i.jurisdiction_priors.Valid ∧
  0 < i.tax_rate ∧ i.tax_rate ≤ 10/100 ∧
  0 ≤ i.estimated_filing_fee ∧ 0 ≤ i.estimated_attorney_fee ∧
  0 ≤ i.estimated_other_costs ∧
  0 < i.min_roi_threshold ∧ 0 ≤ i.min_savings_threshold ∧
  1 ≤ i.appeal_horizon_years ∧ i.appeal_horizon_years ≤ 10

/-- One constructor per `primary_rationale` string template of
`make_appeal_decision`; each constructor carries the numbers interpolated
into the corresponding f-string. -/
inductive Rationale
  | assessmentBelowMarket (pct : ℚ)
  | appealCouldRaiseAssessment
  | withinReasonableBounds
  | ratioReasonable (pct : ℚ)
  | withinValuationBand
  | aboveMarket (pct : ℚ)
  | outsideBand (bandPct : ℚ)
  | roiExceedsThreshold (roi thr : ℚ)
  deriving DecidableEq

/-- One constructor per `risk_factors` string template of
`make_appeal_decision`. -/
inductive RiskFactor
  | assessmentIncreaseRisk
  | countyReassessmentAttention
  | jurisdictionReassessmentHistory
  | savingsMayNotJustifyCosts
  | roiBelowThreshold (roi thr : ℚ)
  | costsMayExceedSavings
  | savingsBelowThreshold (thr : ℚ)
  | reliabilityGradeNote (g : Grade)
  | belowAverageSuccessProbability
  deriving DecidableEq

/-- One constructor per `supporting_factors` string template of
`make_appeal_decision`. -/
inductive SupportingFactor
  | appealCouldStillProvideRoi (roi : ℚ)
  | savingsExceedThreshold (savings : ℚ)
  | aboveAverageSuccessProbability
  | highQualityValuation (g : Grade)
  deriving DecidableEq

/-- The `HIGH`/`MEDIUM`/`LOW` confidence level. -/
inductive ConfidenceLevel
  | HIGH
  | MEDIUM
  | LOW
  deriving DecidableEq

/-- `DecisionResult` (decision.py lines 54-84). -/
structure DecisionResult where
  decision : AppealDecision
  confidence_level : ConfidenceLevel
  assessment_ratio : ℚ
  expected_annual_savings : ℚ
  expected_roi : Option ℚ
  breakeven_reduction_pct : ℚ
  primary_rationale : List Rationale
  risk_factors : List RiskFactor
  supporting_factors : List SupportingFactor
  within_confidence_band : Bool
  success_probability : ℚ
  reassessment_risk_warning : Bool
  total_appeal_costs : ℚ
  net_savings_year_1 : ℚ
  cumulative_net_savings : ℚ
  deriving DecidableEq

/-- `assessment_ratio = assessed_value / estimated_market_value`
(decision.py line 110). -/
def assessmentRatio (i : DecisionInput) : ℚ :=
  i.assessed_value / i.estimated_market_value

/-- `within_confidence_band` (decision.py lines 113-116). -/
def WithinBand (i : DecisionInput) : Prop :=
  i.confidence_result.lower_bound ≤ i.assessed_value ∧
    i.assessed_value ≤ i.confidence_result.upper_bound

instance (i : DecisionInput) : Decidable (WithinBand i) := by
  unfold WithinBand
  infer_instance

/-- `reduced_assessment`, floored at the market estimate
(decision.py lines 120-124). -/
def reducedAssessment (i : DecisionInput) : ℚ :=
  max (i.assessed_value * (1 - i.jurisdiction_priors.average_reduction_pct))
    i.estimated_market_value

/-- `annual_tax_savings` (decision.py line 126). -/
def annualTaxSavings (i : DecisionInput) : ℚ :=
  (i.assessed_value - reducedAssessment i) * i.tax_rate

/-- `total_costs`, with the jurisdiction fallback when the supplied costs
sum to zero (decision.py lines 129-140). -/
def totalCosts (i : DecisionInput) : ℚ :=
  let supplied := i.estimated_filing_fee + i.estimated_attorney_fee + i.estimated_other_costs
  if supplied = 0 then
    i.jurisdiction_priors.typical_filing_fee + i.jurisdiction_priors.typical_attorney_cost
  else supplied

/-- `expected_roi`, a rounded percentage, `None` when there are no costs
(decision.py lines 146-150). -/
def expectedRoi (i : DecisionInput) : Option ℚ :=
  if 0 < totalCosts i then
    some (quantize2 ((annualTaxSavings i * i.appeal_horizon_years - totalCosts i) / totalCosts i * 100))
  else none

/-- `breakeven_reduction_pct` (decision.py lines 152-159). -/
def breakevenReductionPct (i : DecisionInput) : ℚ :=
  if 0 < totalCosts i ∧ 0 < i.tax_rate then
    quantize2 (totalCosts i / i.appeal_horizon_years / i.tax_rate / i.assessed_value)
  else 0

/-- `success_probability` (decision.py lines 167-187): the jurisdiction
baseline, boosted only when the assessment is outside the band, over-assessed
and the excess ratio exceeds the band width; scaled down when outside the
band and not over-assessed; then adjusted by the confidence score and clamped
to [0.05, 0.95]. -/
def successProbability (i : DecisionInput) : ℚ :=
  let base := i.jurisdiction_priors.appeal_success_rate
  let adjusted :=
    if ¬ WithinBand i then
      if 1 < assessmentRatio i then
        if i.confidence_result.confidence_band_pct < assessmentRatio i - 1 then
          min (base + min ((assessmentRatio i - 1) * (1/2)) (3/10)) (9/10)
        else base
      else min (base * (3/10)) (1/5)
    else base
  max (1/20) (min (adjusted + (i.confidence_result.confidence_score - 1/2) * (1/5)) (19/20))

/-- The decision tag of the primary decision logic
(decision.py lines 189-225). -/
def decision (i : DecisionInput) : AppealDecision :=
  if assessmentRatio i < 9/10 then .UNDER
  else if assessmentRatio i ≤ 1 + i.jurisdiction_priors.cod_target ∧ WithinBand i then .FAIR
  else .OVER

/-- Python truthiness of the `Optional[Decimal]` ROI (`None` and
`Decimal(0)` are falsy). -/
def roiTruthy : Option ℚ → Bool
  | none => false
  | some r => decide (r ≠ 0)

/-- The test `expected_roi and expected_roi > input_data.min_roi_threshold`
(decision.py lines 217 and 235). -/
def roiAbove (i : DecisionInput) : Bool :=
  match expectedRoi i with
  | none => false
  | some r => decide (r ≠ 0) && decide (i.min_roi_threshold < r)

/-- The FAIR-branch worthwhile-appeal test (decision.py lines 217-218). -/
def fairAppealWorthwhile (i : DecisionInput) : Bool :=
  roiAbove i && decide (i.min_savings_threshold < annualTaxSavings i)

/-- `primary_rationale` accumulated by the branch taken
(decision.py lines 189-247). -/
def branchPrimary (i : DecisionInput) : List Rationale :=
  if assessmentRatio i < 9/10 then
    [Rationale.assessmentBelowMarket (quantize2 ((1 - assessmentRatio i) * 100)),
     Rationale.appealCouldRaiseAssessment]
  else if assessmentRatio i ≤ 1 + i.jurisdiction_priors.cod_target ∧ WithinBand i then
    [Rationale.withinReasonableBounds,
     Rationale.ratioReasonable (quantize2 (assessmentRatio i * 100))] ++
    (if WithinBand i then [Rationale.withinValuationBand] else [])
  else
    [Rationale.aboveMarket (quantize2 ((assessmentRatio i - 1) * 100))] ++
    (if ¬ WithinBand i then
      [Rationale.outsideBand (quantize2 (i.confidence_result.confidence_band_pct * 100))]
     else []) ++
    (if roiAbove i then
      [Rationale.roiExceedsThreshold ((expectedRoi i).getD 0) i.min_roi_threshold]
     else [])

/-- `risk_factors` accumulated by the branch taken
(decision.py lines 189-247). -/
def branchRisks (i : DecisionInput) : List RiskFactor :=
  if assessmentRatio i < 9/10 then
    [RiskFactor.assessmentIncreaseRisk, RiskFactor.countyReassessmentAttention] ++
    (if 1/10 < i.jurisdiction_priors.reassessment_risk_factor then
      [RiskFactor.jurisdictionReassessmentHistory] else [])
  else if assessmentRatio i ≤ 1 + i.jurisdiction_priors.cod_target ∧ WithinBand i then
    (if fairAppealWorthwhile i then [] else [RiskFactor.savingsMayNotJustifyCosts])
  else
    (if roiAbove i then []
     else if roiTruthy (expectedRoi i) then
       [RiskFactor.roiBelowThreshold ((expectedRoi i).getD 0) i.min_roi_threshold]
     else [RiskFactor.costsMayExceedSavings]) ++
    (if i.min_savings_threshold < annualTaxSavings i then []
     else [RiskFactor.savingsBelowThreshold i.min_savings_threshold])

/-- `supporting_factors` accumulated by the branch taken
(decision.py lines 189-247). -/
def branchSupport (i : DecisionInput) : List SupportingFactor :=
  if assessmentRatio i < 9/10 then []
  else if assessmentRatio i ≤ 1 + i.jurisdiction_priors.cod_target ∧ WithinBand i then
    (if fairAppealWorthwhile i then
      [SupportingFactor.appealCouldStillProvideRoi ((expectedRoi i).getD 0)] else [])
  else
    (if i.min_savings_threshold < annualTaxSavings i then
      [SupportingFactor.savingsExceedThreshold (annualTaxSavings i)] else [])

/-- `confidence_factors` point accumulation (decision.py lines 249-267). -/
def confidenceFactors (i : DecisionInput) : ℕ :=
  (if 7/10 < i.confidence_result.confidence_score then 2
   else if 1/2 < i.confidence_result.confidence_score then 1 else 0) +
  (if 23/20 < assessmentRatio i ∨ assessmentRatio i < 17/20 then 2
   else if 11/10 < assessmentRatio i ∨ assessmentRatio i < 9/10 then 1 else 0) +
  (if 3/5 < successProbability i then 1 else 0) +
  (if i.confidence_result.risk_factors.length ≤ 2 then 1 else 0)

/-- `confidence_level` (decision.py lines 269-275). -/
def confidenceLevel (i : DecisionInput) : ConfidenceLevel :=
  if 5 ≤ confidenceFactors i then .HIGH
  else if 3 ≤ confidenceFactors i then .MEDIUM
  else .LOW

/-- General risk factors appended after the branch
(decision.py lines 277-282). -/
def generalRisks (i : DecisionInput) : List RiskFactor :=
  (if i.confidence_result.reliability_grade = .C ∨
      i.confidence_result.reliability_grade = .D then
    [RiskFactor.reliabilityGradeNote i.confidence_result.reliability_grade] else []) ++
  (if successProbability i < 2/5 then [RiskFactor.belowAverageSuccessProbability] else [])

/-- Supporting factors appended only for OVER decisions
(decision.py lines 284-290). -/
def overSupportExtras (i : DecisionInput) : List SupportingFactor :=
  if decision i = .OVER then
    (if 3/5 < successProbability i then
      [SupportingFactor.aboveAverageSuccessProbability] else []) ++
    (if i.confidence_result.reliability_grade = .A ∨
        i.confidence_result.reliability_grade = .B then
      [SupportingFactor.highQualityValuation i.confidence_result.reliability_grade]
     else [])
  else []

/-- `make_appeal_decision` (decision.py lines 87-308).  The
`reassessment_risk_warning` flag is initialised `False` and set `True`
exactly on the UNDER branch, whose guard is `assessment_ratio < 0.90`. -/
def make_appeal_decision (i : DecisionInput) : DecisionResult :=
  { decision := decision i
    confidence_level := confidenceLevel i
    assessment_ratio := quantize2 (assessmentRatio i)
    expected_annual_savings := quantize2 (annualTaxSavings i)
    expected_roi := expectedRoi i
    breakeven_reduction_pct := breakevenReductionPct i
    primary_rationale := branchPrimary i
    risk_factors := branchRisks i ++ generalRisks i
    supporting_factors := branchSupport i ++ overSupportExtras i
    within_confidence_band := decide (WithinBand i)
    success_probability := quantize2 (successProbability i)
    reassessment_risk_warning := decide (assessmentRatio i < 9/10)
    total_appeal_costs := quantize2 (totalCosts i)
    net_savings_year_1 := quantize2 (annualTaxSavings i - totalCosts i)
    cumulative_net_savings := quantize2 (annualTaxSavings i * i.appeal_horizon_years - totalCosts i) }

/-! ## Model of the wildcard `convert_to_decimal` pre-validators (claim C3)

The three input models carry `@validator("*", pre=True)` hooks whose guard is
`any(field in annotations for field in [decimal field names])` — a constant
predicate over the class, not a test of the field being validated.  pydantic
v1 converts only `ValueError`, `TypeError` and `AssertionError` raised inside
a validator into its typed `ValidationError`; `decimal.InvalidOperation`
(an `ArithmeticError`) raised by `Decimal(str(v))` on a non-numeric string
propagates to the caller raw. -/

namespace Py

/-- The exception classes relevant to the pre-validators. -/
inductive Exc
  | valueError
  | typeError
  | assertionError
  | invalidOperation
  deriving DecidableEq

/-- Whether pydantic v1 field validation converts the exception into a typed
`ValidationError`. -/
def caught : Exc → Bool
  | .valueError => true
  | .typeError => true
  | .assertionError => true
  | .invalidOperation => false

/-- Raw Python values a caller can supply for a field (a `bool` is an
instance of `int` in Python, so it passes the `isinstance(v, (int, float,
str))` test too). -/
inductive Value
  | vstr (s : String)
  | vint (n : ℤ)
  | vbool (b : Bool)
  | vdecimal (q : ℚ)
  | vnone
  deriving DecidableEq

/-- Whether a character is an ASCII digit. -/
def isDig (c : Char) : Bool := '0' ≤ c && c ≤ '9'

/-- Numeric value of a digit list (most significant first). -/
def digitsVal (cs : List Char) : ℕ :=
  cs.foldl (fun a c => 10 * a + (c.toNat - '0'.toNat)) 0

/-- Exponent suffix of a `Decimal` literal: empty, or `e`/`E` with an
optionally signed nonempty digit run. -/
def parseExponent : List Char → Option ℤ
  | [] => some 0
  | c :: rest =>
    if c = 'e' ∨ c = 'E' then
      match rest with
      | '+' :: ds => if ds ≠ [] ∧ ds.all isDig then some (digitsVal ds) else none
      | '-' :: ds => if ds ≠ [] ∧ ds.all isDig then some (-(digitsVal ds : ℤ)) else none
      | ds => if ds ≠ [] ∧ ds.all isDig then some (digitsVal ds) else none
    else none

/-- Mantissa of a `Decimal` literal: digits, optionally with a fractional
point, at least one digit overall; returns its value and the unconsumed
suffix. -/
def parseMantissa (cs : List Char) : Option (ℚ × List Char) :=
  let ip := cs.takeWhile isDig
  let rest := cs.dropWhile isDig
  match rest with
  | '.' :: rest2 =>
    let fp := rest2.takeWhile isDig
    let rest3 := rest2.dropWhile isDig
    if ip = [] ∧ fp = [] then none
    else some ((digitsVal (ip ++ fp) : ℚ) / 10 ^ fp.length, rest3)
  | _ => if ip = [] then none else some ((digitsVal ip : ℚ), rest)

/-- Model of the Python `Decimal(string)` constructor on finite numeric
literals: optional sign, digits with optional fraction, optional exponent,
surrounding spaces stripped.  The special values (`NaN`, `Infinity`) and
digit-group underscores, which no claim exercises, are omitted.  `none`
models the constructor raising `decimal.InvalidOperation`. -/
def decimalParse (s : String) : Option ℚ :=
  let cs := ((s.toList.dropWhile fun c => c = ' ').reverse.dropWhile fun c => c = ' ').reverse
  let signed : ℚ × List Char :=
    match cs with
    | '-' :: r => (-1, r)
    | '+' :: r => (1, r)
    | r => (1, r)
  match parseMantissa signed.2 with
  | none => none
  | some (m, rest) =>
    match parseExponent rest with
    | none => none
    | some e => some (signed.1 * m * (10:ℚ) ^ e)

/-- The decimal-field name list hard-coded in
`JurisdictionPriors.convert_to_decimal` (jurisdiction.py line 45). -/
def jurisdictionDecimalFields : List String :=
  ["appeal_success_rate", "average_reduction_pct", "median_reduction_pct",
   "typical_filing_fee", "typical_attorney_cost", "cod_target",
   "reassessment_risk_factor", "assessment_ratio"]

/-- The annotation keys of the `JurisdictionPriors` class body
(jurisdiction.py lines 11-32). -/
def jurisdictionAnnotationKeys : List String :=
  ["jurisdiction_id", "jurisdiction_name", "state", "appeal_success_rate",
   "average_reduction_pct", "median_reduction_pct", "typical_filing_fee",
   "typical_attorney_cost", "average_timeline_days", "cod_target",
   "reassessment_risk_factor", "uses_market_value", "assessment_ratio",
   "last_revaluation_year"]

/-- The guard `any(field in cls.annotation keys for field in
jurisdictionDecimalFields)` of the wildcard pre-validator: it does not
mention the field under validation at all. -/
def jurisdictionAnyCheck : Bool :=
  jurisdictionDecimalFields.any fun f => jurisdictionAnnotationKeys.contains f

/-- `JurisdictionPriors.convert_to_decimal` (jurisdiction.py lines 43-47)
applied to one raw field value. -/
def convert_to_decimal (v : Value) : Except Exc Value :=
  if jurisdictionAnyCheck then
    match v with
    | .vstr s =>
      match decimalParse s with
      | some q => .ok (.vdecimal q)
      | none => .error .invalidOperation
    | .vint n => .ok (.vdecimal (n : ℚ))
    | .vbool b =>
      match decimalParse (if b then "True" else "False") with
      | some q => .ok (.vdecimal q)
      | none => .error .invalidOperation
    | w => .ok w
  else .ok v

/-- Outcome of a model construction: a value, a typed pydantic
`ValidationError`, or a raw uncaught exception. -/
inductive Outcome (α : Type)
  | ok (a : α)
  | validationError
  | uncaught (e : Exc)
  deriving DecidableEq

/-- pydantic v1 running one field's pre-validator: the whitelisted exception
classes become a typed `ValidationError`, anything else propagates. -/
def runFieldValidator (v : Value) : Outcome Value :=
  match convert_to_decimal v with
  | .ok w => .ok w
  | .error e => if caught e then .validationError else .uncaught e

/-- The pre-validation pass of a `JurisdictionPriors` construction over its
three required string fields, in declaration order (field defaults are not
validated in pydantic v1, so the numeric defaults are not involved). -/
def constructJurisdictionPriors (jid jname st : String) : Outcome (Value × Value × Value) :=
  match runFieldValidator (.vstr jid) with
  | .uncaught e => .uncaught e
  | .validationError => .validationError
  | .ok v1 =>
    match runFieldValidator (.vstr jname) with
    | .uncaught e => .uncaught e
    | .validationError => .validationError
    | .ok v2 =>
      match runFieldValidator (.vstr st) with
      | .uncaught e => .uncaught e
      | .validationError => .validationError
      | .ok v3 => .ok (v1, v2, v3)

end Py

/-! ## Concrete instances used by witnesses and counterexamples -/

/-- A well-formed confidence result: central $1,000,000, ±10% band,
grade-A score 0.8, no risk factors. -/
def confA : ConfidenceResult :=
  { central_estimate := 1000000
    confidence_band_pct := 1/10
    lower_bound := 900000
    upper_bound := 1100000
    confidence_score := 4/5
    reliability_grade := .A
    estimate_dispersion := none
    method_consistency := 1
    risk_factors := [] }

/-- A well-formed confidence result around $500,000 with score 0.5. -/
def confB : ConfidenceResult :=
  { central_estimate := 500000
    confidence_band_pct := 1/10
    lower_bound := 450000
    upper_bound := 550000
    confidence_score := 1/2
    reliability_grade := .C
    estimate_dispersion := none
    method_consistency := 1
    risk_factors := [] }

/-- Jurisdiction priors mirroring the repository's test fixture
(40% success rate, 15% average reduction, 10% COD target). -/
def jurA : JurisdictionPriors :=
  { jurisdiction_id := "test_county"
    jurisdiction_name := "Test County"
    state := "TX"
    appeal_success_rate := 2/5
    average_reduction_pct := 3/20
    median_reduction_pct := 3/25
    typical_filing_fee := 500
    typical_attorney_cost := 2500
    average_timeline_days := 180
    cod_target := 1/10
    reassessment_risk_factor := 1/20
    uses_market_value := true
    assessment_ratio := 1
    last_revaluation_year := none }

/-- Jurisdiction priors with the default 35% success rate. -/
def jurB : JurisdictionPriors :=
  { jurA with
    jurisdiction_id := "cook_county"
    jurisdiction_name := "Cook County"
    state := "IL"
    appeal_success_rate := 7/20 }

/-- Assessed $1,300,000 against market $1,000,000 with moderate costs. -/
def dIn1 : DecisionInput :=
  { assessed_value := 1300000
    estimated_market_value := 1000000
    confidence_result := confA
    jurisdiction_priors := jurA
    tax_rate := 1/40
    estimated_filing_fee := 500
    estimated_attorney_fee := 2000
    estimated_other_costs := 0
    min_roi_threshold := 2
    min_savings_threshold := 1000
    appeal_horizon_years := 3 }

/-- Like `dIn1` but with $10,000 of costs, putting the expected ROI at
46.25%, strictly between 2% and 200%. -/
def dIn4 : DecisionInput :=
  { dIn1 with estimated_filing_fee := 10000, estimated_attorney_fee := 0 }

/-- Assessed 2% over market but outside a band that sits around $500,000:
outside the band, over-assessed, and the excess ratio 0.02 does not exceed
the band width 0.10. -/
def dIn5 : DecisionInput :=
  { assessed_value := 1020000
    estimated_market_value := 1000000
    confidence_result := confB
    jurisdiction_priors := jurB
    tax_rate := 1/40
    estimated_filing_fee := 0
    estimated_attorney_fee := 0
    estimated_other_costs := 0
    min_roi_threshold := 2
    min_savings_threshold := 1000
    appeal_horizon_years := 3 }

/-- Assessed $800,000 against market $1,000,000 with a minuscule (but valid)
tax rate. -/
def dIn7 : DecisionInput :=
  { dIn1 with assessed_value := 800000, tax_rate := 1/100000000000 }

/-- Assessed $800,000 against market $1,000,000 at a 2.5% tax rate. -/
def dIn7w : DecisionInput :=
  { dIn1 with assessed_value := 800000 }

/-- A fairly assessed property with a very small (but valid) tax rate and
$3,000 of costs: the breakeven reduction evaluates to 100 (10,000%). -/
def dIn8 : DecisionInput :=
  { dIn1 with
    assessed_value := 100000
    estimated_market_value := 100000
    tax_rate := 1/10000
    estimated_filing_fee := 3000
    estimated_attorney_fee := 0 }

/-- A valid confidence input whose central estimate is one cent. -/
def cIn2 : ConfidenceInput :=
  { estimated_market_value := 1/100
    valuation_method := .sales_comparison
    comparable_sales := []
    other_estimates := []
    data_quality_score := 4/5
    market_conditions := .stable
    property_uniqueness := 1/2
    days_since_valuation := 0 }

/-- A valid confidence input with quality 0.732, producing a pre-rounding
score of 0.79955... (grade B) that rounds up to exactly 0.800. -/
def cIn6 : ConfidenceInput :=
  { cIn2 with
    estimated_market_value := 100000
    data_quality_score := 183/250
    property_uniqueness := 0 }

/-- A baseline valid confidence input (sales comparison, quality 0.8,
stable market, uniqueness 0.5, fresh valuation). -/
def cIn9 : ConfidenceInput :=
  { cIn2 with estimated_market_value := 1000000 }

/-! ## Claim theorems -/

theorem decision_eq_under_iff (i : DecisionInput) :
    decision i = AppealDecision.UNDER ↔ assessmentRatio i < 9/10 := by
  unfold decision
  constructor
  · intro hU
    by_contra h1
    rw [if_neg h1] at hU
    by_cases h2 : assessmentRatio i ≤ 1 + i.jurisdiction_priors.cod_target ∧ WithinBand i
    · rw [if_pos h2] at hU
      exact AppealDecision.noConfusion hU
    · rw [if_neg h2] at hU
      exact AppealDecision.noConfusion hU
  · intro h1
    rw [if_pos h1]

/-- Claim C3: the three input models are supposed to either construct or
surface a typed validation error, but the wildcard `convert_to_decimal`
pre-validator's guard is identically true, so the non-numeric string fields
of the repository's own `test_valid_priors_creation` fixture reach
`Decimal(str(v))`, which raises `decimal.InvalidOperation` — an exception
pydantic v1 does not convert into a `ValidationError`; the construction
fails in an untyped way. -/
theorem c3_wildcard_prevalidator_uncaught :
    Py.jurisdictionAnyCheck = true ∧
    Py.constructJurisdictionPriors "travis_county_tx" "Travis County, TX" "TX" =
      Py.Outcome.uncaught Py.Exc.invalidOperation ∧
    ∀ v : Py.Value × Py.Value × Py.Value,
      Py.constructJurisdictionPriors "travis_county_tx" "Travis County, TX" "TX" ≠
        Py.Outcome.ok v := by
  refine ⟨rfl, rfl, ?_⟩
  intro v h
  simp [show Py.constructJurisdictionPriors "travis_county_tx" "Travis County, TX" "TX" =
    Py.Outcome.uncaught Py.Exc.invalidOperation from rfl] at h

/-- Claim C1: for every valid `DecisionInput` the classification is the
stated piecewise rule evaluated in order (UNDER below ratio 0.90 with the
reassessment warning set, FAIR when the ratio is within the COD tolerance
and the assessed value lies in the band, OVER otherwise); UNDER holds
exactly when the ratio is below 0.90, so a ratio above 1.20 never yields
UNDER. -/
theorem c1_decision_piecewise (i : DecisionInput) (h : i.Valid) :
    ((make_appeal_decision i).decision =
      if assessmentRatio i < 9/10 then AppealDecision.UNDER
      else if assessmentRatio i ≤ 1 + i.jurisdiction_priors.cod_target ∧ WithinBand i then
        AppealDecision.FAIR
      else AppealDecision.OVER) ∧
    ((make_appeal_decision i).decision = AppealDecision.UNDER →
      (make_appeal_decision i).reassessment_risk_warning = true) ∧
    ((make_appeal_decision i).decision = AppealDecision.UNDER ↔ assessmentRatio i < 9/10) ∧
    (6/5 < assessmentRatio i → (make_appeal_decision i).decision ≠ AppealDecision.UNDER) := by
  have hiff : (make_appeal_decision i).decision = AppealDecision.UNDER ↔
      assessmentRatio i < 9/10 := decision_eq_under_iff i
  refine ⟨rfl, ?_, hiff, ?_⟩
  · intro hU
    exact decide_eq_true (hiff.mp hU)
  · intro h6 hU
    have h1 := hiff.mp hU
    linarith

/-- Witness for C1 at a valid concrete input. -/
theorem c1_witness : dIn1.Valid ∧
    (((make_appeal_decision dIn1).decision =
      if assessmentRatio dIn1 < 9/10 then AppealDecision.UNDER
      else if assessmentRatio dIn1 ≤ 1 + dIn1.jurisdiction_priors.cod_target ∧ WithinBand dIn1 then
        AppealDecision.FAIR
      else AppealDecision.OVER) ∧
    ((make_appeal_decision dIn1).decision = AppealDecision.UNDER →
      (make_appeal_decision dIn1).reassessment_risk_warning = true) ∧
    ((make_appeal_decision dIn1).decision = AppealDecision.UNDER ↔ assessmentRatio dIn1 < 9/10) ∧
    (6/5 < assessmentRatio dIn1 → (make_appeal_decision dIn1).decision ≠ AppealDecision.UNDER)) :=
  ⟨by norm_num [DecisionInput.Valid, ConfidenceResult.Valid, JurisdictionPriors.Valid,
      dIn1, confA, jurA],
   c1_decision_piecewise dIn1 (by norm_num [DecisionInput.Valid, ConfidenceResult.Valid,
      JurisdictionPriors.Valid, dIn1, confA, jurA])⟩

/-- Claim C10: the reassessment-risk warning is true exactly when the
decision is UNDER — the flag starts false and is set only on the UNDER
branch. -/
theorem c10_warning_iff_under (i : DecisionInput) (h : i.Valid) :
    ((make_appeal_decision i).reassessment_risk_warning = true ↔
      (make_appeal_decision i).decision = AppealDecision.UNDER) := by
  show decide (assessmentRatio i < 9/10) = true ↔ decision i = AppealDecision.UNDER
  rw [decision_eq_under_iff]
  simp only [decide_eq_true_eq]

/-- Witness for C10 at a valid concrete input. -/
theorem c10_witness : dIn1.Valid ∧
    ((make_appeal_decision dIn1).reassessment_risk_warning = true ↔
      (make_appeal_decision dIn1).decision = AppealDecision.UNDER) :=
  ⟨by norm_num [DecisionInput.Valid, ConfidenceResult.Valid, JurisdictionPriors.Valid,
      dIn1, confA, jurA],
   c10_warning_iff_under dIn1 (by norm_num [DecisionInput.Valid, ConfidenceResult.Valid,
      JurisdictionPriors.Valid, dIn1, confA, jurA])⟩

/-- Claim C8: the breakeven reduction percentage is exactly the stated
formula when costs and tax rate are positive and 0 otherwise, with no clamp:
at a valid input with a very small tax rate the returned value exceeds 1.0
and the result is still produced. -/
theorem c8_breakeven_formula :
    (∀ i : DecisionInput, i.Valid →
      (make_appeal_decision i).breakeven_reduction_pct =
        if 0 < totalCosts i ∧ 0 < i.tax_rate then
          quantize2 (totalCosts i / i.appeal_horizon_years / i.tax_rate / i.assessed_value)
        else 0) ∧
    (dIn8.Valid ∧ 1 < (make_appeal_decision dIn8).breakeven_reduction_pct) := by
  refine ⟨fun i _ => rfl, ?_, ?_⟩
  · norm_num [DecisionInput.Valid, ConfidenceResult.Valid, JurisdictionPriors.Valid,
      dIn8, dIn1, confA, jurA]
  · show 1 < breakevenReductionPct dIn8
    have hc : totalCosts dIn8 = 3000 := by norm_num [totalCosts, dIn8, dIn1]
    have h1 : breakevenReductionPct dIn8 =
        quantize2 (totalCosts dIn8 / dIn8.appeal_horizon_years / dIn8.tax_rate /
          dIn8.assessed_value) := by
      unfold breakevenReductionPct
      rw [if_pos ⟨by rw [hc]; norm_num, by norm_num [dIn8, dIn1]⟩]
    have h2 : totalCosts dIn8 / (dIn8.appeal_horizon_years : ℚ) / dIn8.tax_rate /
        dIn8.assessed_value = 100 := by
      rw [hc]
      norm_num [dIn8, dIn1]
    have h3 : quantize2 (100:ℚ) = 100 :=
      quantize2_eq_of (n := 10000) (by norm_num) (by norm_num) (by norm_num) (by norm_num)
    rw [h1, h2, h3]
    norm_num

/-- Witness for the universally quantified part of C8 at a valid input. -/
theorem c8_witness : dIn1.Valid ∧
    (make_appeal_decision dIn1).breakeven_reduction_pct =
      (if 0 < totalCosts dIn1 ∧ 0 < dIn1.tax_rate then
        quantize2 (totalCosts dIn1 / dIn1.appeal_horizon_years / dIn1.tax_rate /
          dIn1.assessed_value)
      else 0) :=
  ⟨by norm_num [DecisionInput.Valid, ConfidenceResult.Valid, JurisdictionPriors.Valid,
      dIn1, confA, jurA],
   c8_breakeven_formula.1 dIn1 (by norm_num [DecisionInput.Valid, ConfidenceResult.Valid,
      JurisdictionPriors.Valid, dIn1, confA, jurA])⟩

/-- Success probability as claim C5 (and spec §4.3 step 8) words it: the
boost applies whenever the assessment is outside the band and over-assessed,
with no comparison of the excess ratio against the band width.  Modelled
from the claim wording, for comparison against the source. -/
def specSuccessProbability (i : DecisionInput) : ℚ :=
  let base := i.jurisdiction_priors.appeal_success_rate
  let adjusted :=
    if ¬ WithinBand i then
      if 1 < assessmentRatio i then
        min (base + min ((assessmentRatio i - 1) * (1/2)) (3/10)) (9/10)
      else min (base * (3/10)) (1/5)
    else base
  max (1/20) (min (adjusted + (i.confidence_result.confidence_score - 1/2) * (1/5)) (19/20))

/-- Counterexample for C5: at `dIn5` the assessment is outside the band and
over-assessed, but the excess ratio 0.02 does not exceed the band width
0.10, so the code applies no boost (success probability 0.35) while the
claim's formula yields 0.36. -/
theorem c5_cex : dIn5.Valid ∧
    (make_appeal_decision dIn5).success_probability = 7/20 ∧
    quantize2 (specSuccessProbability dIn5) = 9/25 ∧
    (make_appeal_decision dIn5).success_probability ≠ quantize2 (specSuccessProbability dIn5) := by
  have hsp : successProbability dIn5 = 7/20 := by
    norm_num [successProbability, WithinBand, assessmentRatio, dIn5, confB, jurB, jurA,
      min_def, max_def]
  have hspec : specSuccessProbability dIn5 = 9/25 := by
    norm_num [specSuccessProbability, WithinBand, assessmentRatio, dIn5, confB, jurB, jurA,
      min_def, max_def]
  have h1 : (make_appeal_decision dIn5).success_probability = 7/20 := by
    show quantize2 (successProbability dIn5) = 7/20
    rw [hsp]
    exact quantize2_eq_of (n := 35) (by norm_num) (by norm_num) (by norm_num) (by norm_num)
  have h2 : quantize2 (specSuccessProbability dIn5) = 9/25 := by
    rw [hspec]
    exact quantize2_eq_of (n := 36) (by norm_num) (by norm_num) (by norm_num) (by norm_num)
  refine ⟨?_, h1, h2, ?_⟩
  · norm_num [DecisionInput.Valid, ConfidenceResult.Valid, JurisdictionPriors.Valid,
      dIn5, confB, jurB, jurA]
  · rw [h1, h2]
    norm_num

/-- Claim C5 as amended: the success probability is the jurisdiction's
success rate, boosted by `min(0.5 × (ratio − 1), 0.3)` capped at 0.9 only
when the assessment is outside the band, over-assessed, **and the excess
ratio exceeds the band width**; scaled to at most 0.2 when outside the band
and not over-assessed; then shifted by `(confidence_score − 0.5) × 0.2` and
clamped to [0.05, 0.95] (the returned field is this value rounded to two
decimals). -/
theorem c5_success_probability_formula (i : DecisionInput) (h : i.Valid) :
    (make_appeal_decision i).success_probability =
      quantize2 (
        let base := i.jurisdiction_priors.appeal_success_rate
        let adjusted :=
          if ¬ WithinBand i then
            if 1 < assessmentRatio i then
              if i.confidence_result.confidence_band_pct < assessmentRatio i - 1 then
                min (base + min ((assessmentRatio i - 1) * (1/2)) (3/10)) (9/10)
              else base
            else min (base * (3/10)) (1/5)
          else base
        max (1/20) (min (adjusted + (i.confidence_result.confidence_score - 1/2) * (1/5))
          (19/20))) := rfl

/-- Witness for C5 at a valid concrete input. -/
theorem c5_witness : dIn1.Valid ∧
    (make_appeal_decision dIn1).success_probability =
      quantize2 (
        let base := dIn1.jurisdiction_priors.appeal_success_rate
        let adjusted :=
          if ¬ WithinBand dIn1 then
            if 1 < assessmentRatio dIn1 then
              if dIn1.confidence_result.confidence_band_pct < assessmentRatio dIn1 - 1 then
                min (base + min ((assessmentRatio dIn1 - 1) * (1/2)) (3/10)) (9/10)
              else base
            else min (base * (3/10)) (1/5)
          else base
        max (1/20) (min (adjusted + (dIn1.confidence_result.confidence_score - 1/2) * (1/5))
          (19/20))) :=
  ⟨by norm_num [DecisionInput.Valid, ConfidenceResult.Valid, JurisdictionPriors.Valid,
      dIn1, confA, jurA],
   c5_success_probability_formula dIn1 (by norm_num [DecisionInput.Valid,
      ConfidenceResult.Valid, JurisdictionPriors.Valid, dIn1, confA, jurA])⟩

/-- Claim C7 as amended: below ratio 0.90 the post-appeal estimate is floored
at the market value, so the pre-rounding savings equal
`(assessed − market) × tax_rate` and are strictly negative; the returned
field is that value rounded to currency, hence ≤ 0, and strictly negative
as soon as the magnitude of the unrounded savings is at least half a cent. -/
theorem c7_under_negative_savings (i : DecisionInput) (h : i.Valid)
    (hr : assessmentRatio i < 9/10) :
    (make_appeal_decision i).decision = AppealDecision.UNDER ∧
    (make_appeal_decision i).reassessment_risk_warning = true ∧
    reducedAssessment i = i.estimated_market_value ∧
    annualTaxSavings i = (i.assessed_value - i.estimated_market_value) * i.tax_rate ∧
    annualTaxSavings i < 0 ∧
    (make_appeal_decision i).expected_annual_savings =
      quantize2 ((i.assessed_value - i.estimated_market_value) * i.tax_rate) ∧
    (make_appeal_decision i).expected_annual_savings ≤ 0 ∧
    (1/200 ≤ (i.estimated_market_value - i.assessed_value) * i.tax_rate →
      (make_appeal_decision i).expected_annual_savings < 0) := by
  obtain ⟨ha, hm, _, hj, ht, _⟩ := h
  obtain ⟨_, _, hred0, hred1, _⟩ := hj
  have hlt : i.assessed_value < i.estimated_market_value := by
    have h9 : i.assessed_value / i.estimated_market_value < 9/10 := hr
    rw [div_lt_iff hm] at h9
    linarith
  have hfloor : reducedAssessment i = i.estimated_market_value := by
    unfold reducedAssessment
    apply max_eq_right
    have hstep : i.assessed_value * (1 - i.jurisdiction_priors.average_reduction_pct) ≤
        i.assessed_value := by nlinarith
    linarith
  have hsav : annualTaxSavings i =
      (i.assessed_value - i.estimated_market_value) * i.tax_rate := by
    unfold annualTaxSavings
    rw [hfloor]
  have hneg : annualTaxSavings i < 0 := by
    rw [hsav]
    exact mul_neg_of_neg_of_pos (by linarith) ht
  have hret : (make_appeal_decision i).expected_annual_savings =
      quantize2 ((i.assessed_value - i.estimated_market_value) * i.tax_rate) := by
    show quantize2 (annualTaxSavings i) = _
    rw [hsav]
  refine ⟨(decision_eq_under_iff i).mpr hr, decide_eq_true hr, hfloor, hsav, hneg, hret, ?_, ?_⟩
  · show quantize2 (annualTaxSavings i) ≤ 0
    have hmono := quantize2_mono (le_of_lt hneg)
    rwa [quantize2_zero] at hmono
  · intro h5
    show quantize2 (annualTaxSavings i) < 0
    apply quantize2_neg_of_le
    have hflip : (i.assessed_value - i.estimated_market_value) * i.tax_rate =
        -((i.estimated_market_value - i.assessed_value) * i.tax_rate) := by ring
    rw [hsav, hflip]
    linarith

/-- Counterexample for C7: at `dIn7` (assessed $800,000, market $1,000,000,
tax rate 10⁻¹¹) the decision is UNDER with the warning set, but the returned
`expected_annual_savings` rounds to 0.00, which is not strictly negative. -/
theorem c7_cex : dIn7.Valid ∧
    (make_appeal_decision dIn7).decision = AppealDecision.UNDER ∧
    (make_appeal_decision dIn7).reassessment_risk_warning = true ∧
    (make_appeal_decision dIn7).expected_annual_savings = 0 ∧
    ¬ (make_appeal_decision dIn7).expected_annual_savings < 0 := by
  have hs : annualTaxSavings dIn7 = -(1/500000) := by
    norm_num [annualTaxSavings, reducedAssessment, dIn7, dIn1, jurA, max_def]
  have hz : (make_appeal_decision dIn7).expected_annual_savings = 0 := by
    show quantize2 (annualTaxSavings dIn7) = 0
    rw [hs]
    exact quantize2_eq_of_neg (n := 0) (by norm_num) (by norm_num) (by norm_num) (by norm_num)
  have hru : assessmentRatio dIn7 < 9/10 := by
    norm_num [assessmentRatio, dIn7, dIn1]
  refine ⟨?_, (decision_eq_under_iff dIn7).mpr hru, decide_eq_true hru, hz, ?_⟩
  · norm_num [DecisionInput.Valid, ConfidenceResult.Valid, JurisdictionPriors.Valid,
      dIn7, dIn1, confA, jurA]
  · rw [hz]
    norm_num

/-- Witness for C7 at assessed $800,000 against market $1,000,000 with a
2.5% tax rate, completing the claim's concrete scenario. -/
theorem c7_witness : dIn7w.Valid ∧ assessmentRatio dIn7w < 9/10 ∧
    ((make_appeal_decision dIn7w).decision = AppealDecision.UNDER ∧
    (make_appeal_decision dIn7w).reassessment_risk_warning = true ∧
    reducedAssessment dIn7w = dIn7w.estimated_market_value ∧
    annualTaxSavings dIn7w =
      (dIn7w.assessed_value - dIn7w.estimated_market_value) * dIn7w.tax_rate ∧
    annualTaxSavings dIn7w < 0 ∧
    (make_appeal_decision dIn7w).expected_annual_savings =
      quantize2 ((dIn7w.assessed_value - dIn7w.estimated_market_value) * dIn7w.tax_rate) ∧
    (make_appeal_decision dIn7w).expected_annual_savings ≤ 0 ∧
    (1/200 ≤ (dIn7w.estimated_market_value - dIn7w.assessed_value) * dIn7w.tax_rate →
      (make_appeal_decision dIn7w).expected_annual_savings < 0)) :=
  ⟨by norm_num [DecisionInput.Valid, ConfidenceResult.Valid, JurisdictionPriors.Valid,
      dIn7w, dIn1, confA, jurA],
   by norm_num [assessmentRatio, dIn7w, dIn1],
   c7_under_negative_savings dIn7w
     (by norm_num [DecisionInput.Valid, ConfidenceResult.Valid, JurisdictionPriors.Valid,
        dIn7w, dIn1, confA, jurA])
     (by norm_num [assessmentRatio, dIn7w, dIn1])⟩

/-- Claim C2 as amended: the returned band is within [0.05, 0.50] and the
returned lower bound is never negative; the strict ordering
`lower < central < upper` holds on the pre-rounding values, and on the
returned currency-rounded fields whenever the central estimate is at least
$1 (it can collapse to equality for sub-dollar estimates). -/
theorem c2_band_bounds (i : ConfidenceInput) (h : i.Valid) :
    (5/100 ≤ (calculate_confidence_band i).confidence_band_pct ∧
      (calculate_confidence_band i).confidence_band_pct ≤ 50/100) ∧
    0 ≤ (calculate_confidence_band i).lower_bound ∧
    (i.estimated_market_value - i.estimated_market_value * finalBand i
        < i.estimated_market_value ∧
      i.estimated_market_value
        < i.estimated_market_value + i.estimated_market_value * finalBand i) ∧
    (1 ≤ i.estimated_market_value →
      (calculate_confidence_band i).lower_bound <
          (calculate_confidence_band i).central_estimate ∧
        (calculate_confidence_band i).central_estimate <
          (calculate_confidence_band i).upper_bound) := by
  obtain ⟨hm, _⟩ := h
  have hb1 : (5:ℚ)/100 ≤ finalBand i := le_max_left _ _
  have hb2 : finalBand i ≤ 50/100 := max_le (by norm_num) (min_le_right _ _)
  have hpre : 0 ≤ i.estimated_market_value - i.estimated_market_value * finalBand i := by
    nlinarith [mul_le_mul_of_nonneg_left hb2 (le_of_lt hm)]
  have hpos : 0 < i.estimated_market_value * finalBand i :=
    mul_pos hm (lt_of_lt_of_le (by norm_num) hb1)
  refine ⟨⟨?_, ?_⟩, ?_, ⟨by linarith, by linarith⟩, ?_⟩
  · have e1 : quantize3 ((5:ℚ)/100) = 5/100 :=
      quantize3_eq_of (n := 50) (by norm_num) (by norm_num) (by norm_num) (by norm_num)
    show 5/100 ≤ quantize3 (finalBand i)
    rw [← e1]
    exact quantize3_mono hb1
  · have e2 : quantize3 ((50:ℚ)/100) = 50/100 :=
      quantize3_eq_of (n := 500) (by norm_num) (by norm_num) (by norm_num) (by norm_num)
    show quantize3 (finalBand i) ≤ 50/100
    rw [← e2]
    exact quantize3_mono hb2
  · show 0 ≤ quantize2 (i.estimated_market_value - i.estimated_market_value * finalBand i)
    have hmono := quantize2_mono hpre
    rwa [quantize2_zero] at hmono
  · intro h1
    have hband : 1/100 ≤ i.estimated_market_value * finalBand i := by
      have hstep : (1:ℚ) * finalBand i ≤ i.estimated_market_value * finalBand i :=
        mul_le_mul_of_nonneg_right h1 (le_trans (by norm_num) hb1)
      nlinarith
    constructor
    · show quantize2 (i.estimated_market_value - i.estimated_market_value * finalBand i) <
        quantize2 i.estimated_market_value
      exact quantize2_lt hpre (by linarith)
    · show quantize2 i.estimated_market_value <
        quantize2 (i.estimated_market_value + i.estimated_market_value * finalBand i)
      exact quantize2_lt (by linarith) (by linarith)

/-- Counterexample for C2: with a one-cent central estimate the returned
lower bound and central estimate both round to $0.01, so the strict ordering
the claim asserts on the returned fields fails. -/
theorem c2_cex : cIn2.Valid ∧
    (calculate_confidence_band cIn2).lower_bound =
      (calculate_confidence_band cIn2).central_estimate ∧
    ¬ ((calculate_confidence_band cIn2).lower_bound <
        (calculate_confidence_band cIn2).central_estimate ∧
      (calculate_confidence_band cIn2).central_estimate <
        (calculate_confidence_band cIn2).upper_bound) := by
  have hD : dispersionInfo cIn2 = (none, 0, 1) := by
    norm_num [dispersionInfo, allEstimates, cIn2]
  have hA : adjustedBand cIn2 = 9/50 := by
    unfold adjustedBand
    rw [hD]
    norm_num [methodBand, qualityAdjustment, marketAdjustment,
      uniquenessAdjustment, ageAdjustment, cIn2]
  have hF : finalBand cIn2 = 9/50 := by
    norm_num [finalBand, hA, min_def, max_def]
  have hl : (calculate_confidence_band cIn2).lower_bound = 1/100 := by
    show quantize2 (cIn2.estimated_market_value - cIn2.estimated_market_value * finalBand cIn2) =
      1/100
    have hv : cIn2.estimated_market_value - cIn2.estimated_market_value * finalBand cIn2 =
        41/5000 := by
      rw [hF]
      norm_num [cIn2]
    rw [hv]
    exact quantize2_eq_of (n := 1) (by norm_num) (by norm_num) (by norm_num) (by norm_num)
  have hc : (calculate_confidence_band cIn2).central_estimate = 1/100 := by
    show quantize2 cIn2.estimated_market_value = 1/100
    have hv : cIn2.estimated_market_value = (1:ℚ)/100 := by norm_num [cIn2]
    rw [hv]
    exact quantize2_eq_of (n := 1) (by norm_num) (by norm_num) (by norm_num) (by norm_num)
  refine ⟨?_, by rw [hl, hc], ?_⟩
  · norm_num [ConfidenceInput.Valid, cIn2]
  · rw [hl, hc]
    simp

/-- Witness for C2 at a valid concrete input with central estimate ≥ $1. -/
theorem c2_witness : cIn9.Valid ∧
    ((5/100 ≤ (calculate_confidence_band cIn9).confidence_band_pct ∧
      (calculate_confidence_band cIn9).confidence_band_pct ≤ 50/100) ∧
    0 ≤ (calculate_confidence_band cIn9).lower_bound ∧
    (cIn9.estimated_market_value - cIn9.estimated_market_value * finalBand cIn9
        < cIn9.estimated_market_value ∧
      cIn9.estimated_market_value
        < cIn9.estimated_market_value + cIn9.estimated_market_value * finalBand cIn9) ∧
    (1 ≤ cIn9.estimated_market_value →
      (calculate_confidence_band cIn9).lower_bound <
          (calculate_confidence_band cIn9).central_estimate ∧
        (calculate_confidence_band cIn9).central_estimate <
          (calculate_confidence_band cIn9).upper_bound)) :=
  ⟨by norm_num [ConfidenceInput.Valid, cIn9, cIn2],
   c2_band_bounds cIn9 (by norm_num [ConfidenceInput.Valid, cIn9, cIn2])⟩

theorem gradeOf_iff (s : ℚ) :
    (gradeOf s = Grade.A ↔ 8/10 ≤ s) ∧
    (gradeOf s = Grade.B ↔ 6/10 ≤ s ∧ s < 8/10) ∧
    (gradeOf s = Grade.C ↔ 4/10 ≤ s ∧ s < 6/10) ∧
    (gradeOf s = Grade.D ↔ s < 4/10) := by
  unfold gradeOf
  by_cases hA : (8:ℚ)/10 ≤ s
  · rw [if_pos hA]
    exact ⟨⟨fun _ => hA, fun _ => rfl⟩,
      ⟨fun hh => absurd hh (by simp), fun hh => absurd hA (not_le.mpr hh.2)⟩,
      ⟨fun hh => absurd hh (by simp), fun hh => absurd hA (not_le.mpr (by linarith [hh.2]))⟩,
      ⟨fun hh => absurd hh (by simp), fun hh => absurd hA (not_le.mpr (by linarith))⟩⟩
  · rw [if_neg hA]
    push_neg at hA
    by_cases hB : (6:ℚ)/10 ≤ s
    · rw [if_pos hB]
      exact ⟨⟨fun hh => absurd hh (by simp), fun hh => absurd hA (not_lt.mpr hh)⟩,
        ⟨fun _ => ⟨hB, hA⟩, fun _ => rfl⟩,
        ⟨fun hh => absurd hh (by simp), fun hh => absurd hB (not_le.mpr hh.2)⟩,
        ⟨fun hh => absurd hh (by simp), fun hh => absurd hB (not_le.mpr (by linarith))⟩⟩
    · rw [if_neg hB]
      push_neg at hB
      by_cases hC : (4:ℚ)/10 ≤ s
      · rw [if_pos hC]
        exact ⟨⟨fun hh => absurd hh (by simp), fun hh => absurd hA (not_lt.mpr hh)⟩,
          ⟨fun hh => absurd hh (by simp), fun hh => absurd hB (not_lt.mpr hh.1)⟩,
          ⟨fun _ => ⟨hC, hB⟩, fun _ => rfl⟩,
          ⟨fun hh => absurd hh (by simp), fun hh => absurd hC (not_le.mpr hh)⟩⟩
      · rw [if_neg hC]
        push_neg at hC
        exact ⟨⟨fun hh => absurd hh (by simp), fun hh => absurd hA (not_lt.mpr hh)⟩,
          ⟨fun hh => absurd hh (by simp), fun hh => absurd hB (not_lt.mpr hh.1)⟩,
          ⟨fun hh => absurd hh (by simp), fun hh => absurd hC (not_lt.mpr hh.1)⟩,
          ⟨fun _ => hC, fun _ => rfl⟩⟩

/-- Claim C6 as amended: the returned confidence score is in [0, 1] and
equals the 3-decimal rounding of the clamped pre-rounding score; the
reliability grade corresponds to the **pre-rounding** score by the stated
thresholds (the returned rounded score can land on the far side of a
threshold, as the counterexample shows). -/
theorem c6_grade_thresholds (i : ConfidenceInput) (h : i.Valid) :
    (calculate_confidence_band i).confidence_score = quantize3 (confidenceScorePre i) ∧
    (0 ≤ (calculate_confidence_band i).confidence_score ∧
      (calculate_confidence_band i).confidence_score ≤ 1) ∧
    ((calculate_confidence_band i).reliability_grade = Grade.A ↔
      8/10 ≤ confidenceScorePre i) ∧
    ((calculate_confidence_band i).reliability_grade = Grade.B ↔
      6/10 ≤ confidenceScorePre i ∧ confidenceScorePre i < 8/10) ∧
    ((calculate_confidence_band i).reliability_grade = Grade.C ↔
      4/10 ≤ confidenceScorePre i ∧ confidenceScorePre i < 6/10) ∧
    ((calculate_confidence_band i).reliability_grade = Grade.D ↔
      confidenceScorePre i < 4/10) := by
  have hg : (calculate_confidence_band i).reliability_grade =
      gradeOf (confidenceScorePre i) := rfl
  have hs0 : 0 ≤ confidenceScorePre i := le_max_left _ _
  have hs1 : confidenceScorePre i ≤ 1 := max_le (by norm_num) (min_le_right _ _)
  obtain ⟨gA, gB, gC, gD⟩ := gradeOf_iff (confidenceScorePre i)
  refine ⟨rfl, ⟨?_, ?_⟩, ?_, ?_, ?_, ?_⟩
  · show 0 ≤ quantize3 (confidenceScorePre i)
    have hmono := quantize3_mono hs0
    have e0 : quantize3 0 = 0 :=
      quantize3_eq_of (n := 0) (by norm_num) (by norm_num) (by norm_num) (by norm_num)
    rwa [e0] at hmono
  · show quantize3 (confidenceScorePre i) ≤ 1
    have hmono := quantize3_mono hs1
    have e1 : quantize3 1 = 1 :=
      quantize3_eq_of (n := 1000) (by norm_num) (by norm_num) (by norm_num) (by norm_num)
    rwa [e1] at hmono
  · rw [hg]; exact gA
  · rw [hg]; exact gB
  · rw [hg]; exact gC
  · rw [hg]; exact gD

/-- Counterexample for C6: at `cIn6` the pre-rounding score is
1799/2250 ≈ 0.79955, so the grade is B, but the returned rounded score is
exactly 0.800 — the claim's "B iff score ∈ [0.6, 0.8)" fails on the
returned score. -/
theorem c6_cex : cIn6.Valid ∧
    (calculate_confidence_band cIn6).reliability_grade = Grade.B ∧
    (calculate_confidence_band cIn6).confidence_score = 8/10 ∧
    ¬ ((calculate_confidence_band cIn6).confidence_score < 8/10) := by
  have hD : dispersionInfo cIn6 = (none, 0, 1) := by
    norm_num [dispersionInfo, allEstimates, cIn6, cIn2]
  have hA : adjustedBand cIn6 = 701/5000 := by
    unfold adjustedBand
    rw [hD]
    norm_num [methodBand, qualityAdjustment, marketAdjustment,
      uniquenessAdjustment, ageAdjustment, cIn6, cIn2]
  have hF : finalBand cIn6 = 701/5000 := by
    norm_num [finalBand, hA, min_def, max_def]
  have hP : confidenceScorePre cIn6 = 1799/2250 := by
    norm_num [confidenceScorePre, hF, min_def, max_def]
  refine ⟨?_, ?_, ?_, ?_⟩
  · norm_num [ConfidenceInput.Valid, cIn6, cIn2]
  · show gradeOf (confidenceScorePre cIn6) = Grade.B
    rw [hP]
    norm_num [gradeOf]
  · show quantize3 (confidenceScorePre cIn6) = 8/10
    rw [hP]
    exact quantize3_eq_of (n := 800) (by norm_num) (by norm_num) (by norm_num) (by norm_num)
  · show ¬ quantize3 (confidenceScorePre cIn6) < 8/10
    rw [hP, quantize3_eq_of (n := 800) (by norm_num) (by norm_num) (by norm_num)
      (by norm_num : ((800:ℤ):ℚ)/1000 = 8/10)]
    norm_num

/-- Witness for C6 at a valid concrete input. -/
theorem c6_witness : cIn9.Valid ∧
    ((calculate_confidence_band cIn9).confidence_score = quantize3 (confidenceScorePre cIn9) ∧
    (0 ≤ (calculate_confidence_band cIn9).confidence_score ∧
      (calculate_confidence_band cIn9).confidence_score ≤ 1) ∧
    ((calculate_confidence_band cIn9).reliability_grade = Grade.A ↔
      8/10 ≤ confidenceScorePre cIn9) ∧
    ((calculate_confidence_band cIn9).reliability_grade = Grade.B ↔
      6/10 ≤ confidenceScorePre cIn9 ∧ confidenceScorePre cIn9 < 8/10) ∧
    ((calculate_confidence_band cIn9).reliability_grade = Grade.C ↔
      4/10 ≤ confidenceScorePre cIn9 ∧ confidenceScorePre cIn9 < 6/10) ∧
    ((calculate_confidence_band cIn9).reliability_grade = Grade.D ↔
      confidenceScorePre cIn9 < 4/10)) :=
  ⟨by norm_num [ConfidenceInput.Valid, cIn9, cIn2],
   c6_grade_thresholds cIn9 (by norm_num [ConfidenceInput.Valid, cIn9, cIn2])⟩

theorem bandPct_mono_of_adjusted {i j : ConfidenceInput}
    (h : adjustedBand i ≤ adjustedBand j) :
    (calculate_confidence_band i).confidence_band_pct ≤
      (calculate_confidence_band j).confidence_band_pct := by
  show quantize3 (finalBand i) ≤ quantize3 (finalBand j)
  exact quantize3_mono (max_le_max le_rfl (min_le_min h le_rfl))

theorem marketAdjustment_mono {a b : MarketConditions} (h : a.rank ≤ b.rank) :
    marketAdjustment a ≤ marketAdjustment b := by
  cases a <;> cases b <;> revert h <;>
    norm_num [MarketConditions.rank, marketAdjustment]

theorem ageAdjustment_mono {i : ConfidenceInput} {d : ℕ} (hd : i.days_since_valuation ≤ d) :
    ageAdjustment i ≤ ageAdjustment { i with days_since_valuation := d } := by
  have e : ageAdjustment { i with days_since_valuation := d } =
      if 0 < d then min ((d:ℚ)/365 * (1/100)) (15/100) else 0 := rfl
  rw [e]
  unfold ageAdjustment
  by_cases h0 : 0 < i.days_since_valuation
  · have hd0 : 0 < d := lt_of_lt_of_le h0 hd
    rw [if_pos h0, if_pos hd0]
    apply min_le_min _ le_rfl
    have hcast : (i.days_since_valuation : ℚ) ≤ (d : ℚ) := by exact_mod_cast hd
    linarith
  · rw [if_neg h0]
    by_cases hd0 : 0 < d
    · rw [if_pos hd0]
      apply le_min
      · positivity
      · norm_num
    · rw [if_neg hd0]

/-- Claim C9: the returned confidence band percentage is monotone in each
input factor separately — lower data quality, a market condition further
along stable ≤ improving ≤ declining ≤ volatile, higher uniqueness, or an
older valuation each produce a band greater than or equal to the more
favorable input's band, all other fields held fixed. -/
theorem c9_band_monotonicity (i : ConfidenceInput) (h : i.Valid) :
    (∀ q, 0 ≤ q → q ≤ i.data_quality_score →
      (calculate_confidence_band i).confidence_band_pct ≤
        (calculate_confidence_band { i with data_quality_score := q }).confidence_band_pct) ∧
    (∀ m, i.market_conditions.rank ≤ MarketConditions.rank m →
      (calculate_confidence_band i).confidence_band_pct ≤
        (calculate_confidence_band { i with market_conditions := m }).confidence_band_pct) ∧
    (∀ u, i.property_uniqueness ≤ u → u ≤ 1 →
      (calculate_confidence_band i).confidence_band_pct ≤
        (calculate_confidence_band { i with property_uniqueness := u }).confidence_band_pct) ∧
    (∀ d, i.days_since_valuation ≤ d → d ≤ 1095 →
      (calculate_confidence_band i).confidence_band_pct ≤
        (calculate_confidence_band { i with days_since_valuation := d }).confidence_band_pct) := by
  refine ⟨?_, ?_, ?_, ?_⟩
  · intro q hq0 hq1
    apply bandPct_mono_of_adjusted
    have e1 : adjustedBand { i with data_quality_score := q } =
        methodBand i.valuation_method + (1 - q) * (15/100) +
        marketAdjustment i.market_conditions + uniquenessAdjustment i +
        ageAdjustment i + (dispersionInfo i).2.1 := rfl
    have e2 : adjustedBand i =
        methodBand i.valuation_method + (1 - i.data_quality_score) * (15/100) +
        marketAdjustment i.market_conditions + uniquenessAdjustment i +
        ageAdjustment i + (dispersionInfo i).2.1 := rfl
    rw [e1, e2]
    have hstep : (1 - i.data_quality_score) * (15/100) ≤ (1 - q) * (15/100) :=
      mul_le_mul_of_nonneg_right (by linarith) (by norm_num)
    linarith
  · intro m hm
    apply bandPct_mono_of_adjusted
    have e1 : adjustedBand { i with market_conditions := m } =
        methodBand i.valuation_method + qualityAdjustment i + marketAdjustment m +
        uniquenessAdjustment i + ageAdjustment i + (dispersionInfo i).2.1 := rfl
    have e2 : adjustedBand i =
        methodBand i.valuation_method + qualityAdjustment i +
        marketAdjustment i.market_conditions + uniquenessAdjustment i +
        ageAdjustment i + (dispersionInfo i).2.1 := rfl
    rw [e1, e2]
    have hstep := marketAdjustment_mono hm
    linarith
  · intro u hu0 hu1
    apply bandPct_mono_of_adjusted
    have e1 : adjustedBand { i with property_uniqueness := u } =
        methodBand i.valuation_method + qualityAdjustment i +
        marketAdjustment i.market_conditions + u * (10/100) +
        ageAdjustment i + (dispersionInfo i).2.1 := rfl
    have e2 : adjustedBand i =
        methodBand i.valuation_method + qualityAdjustment i +
        marketAdjustment i.market_conditions + i.property_uniqueness * (10/100) +
        ageAdjustment i + (dispersionInfo i).2.1 := rfl
    rw [e1, e2]
    have hstep : i.property_uniqueness * (10/100) ≤ u * (10/100) :=
      mul_le_mul_of_nonneg_right hu0 (by norm_num)
    linarith
  · intro d hd0 hd1
    apply bandPct_mono_of_adjusted
    have e1 : adjustedBand { i with days_since_valuation := d } =
        methodBand i.valuation_method + qualityAdjustment i +
        marketAdjustment i.market_conditions + uniquenessAdjustment i +
        ageAdjustment { i with days_since_valuation := d } + (dispersionInfo i).2.1 := rfl
    have e2 : adjustedBand i =
        methodBand i.valuation_method + qualityAdjustment i +
        marketAdjustment i.market_conditions + uniquenessAdjustment i +
        ageAdjustment i + (dispersionInfo i).2.1 := rfl
    rw [e1, e2]
    have hstep := ageAdjustment_mono hd0
    linarith

/-- Witness for C9: degrading the data quality of `cIn9` from 0.8 to 0.5
does not shrink the band. -/
theorem c9_witness : cIn9.Valid ∧ (0:ℚ) ≤ 1/2 ∧ (1:ℚ)/2 ≤ cIn9.data_quality_score ∧
    (calculate_confidence_band cIn9).confidence_band_pct ≤
      (calculate_confidence_band { cIn9 with data_quality_score := 1/2 }).confidence_band_pct :=
  ⟨by norm_num [ConfidenceInput.Valid, cIn9, cIn2],
   by norm_num,
   by norm_num [cIn9, cIn2],
   (c9_band_monotonicity cIn9 (by norm_num [ConfidenceInput.Valid, cIn9, cIn2])).1 (1/2)
     (by norm_num) (by norm_num [cIn9, cIn2])⟩

theorem mem_ite_iff {α : Type} (a : α) (c : Prop) [Decidable c] (l1 l2 : List α) :
    (a ∈ if c then l1 else l2) ↔ (c ∧ a ∈ l1) ∨ (¬ c ∧ a ∈ l2) := by
  split_ifs with hcc <;> simp [hcc]

/-- Claim C4 as amended: the minimum ROI threshold is compared directly
against the ROI percentage, so the default 2.0 means 2% (the source's own
message prints "exceeds 2.0% threshold"): with positive total costs and the
default threshold, an OVER decision lists the exceeds-threshold rationale
exactly when the (nonzero) expected ROI percentage exceeds 2.0, lists the
below-threshold risk factor exactly when the expected ROI is nonzero and at
most 2.0, and a FAIR decision emits the supporting note exactly when the
nonzero expected ROI exceeds 2.0 and the annual savings exceed the savings
threshold. -/
theorem c4_roi_threshold_in_percent (i : DecisionInput) (h : i.Valid)
    (hc : 0 < totalCosts i) (ht : i.min_roi_threshold = 2) :
    ∃ rv, (make_appeal_decision i).expected_roi = some rv ∧
      rv = quantize2 ((annualTaxSavings i * i.appeal_horizon_years - totalCosts i) /
        totalCosts i * 100) ∧
      ((make_appeal_decision i).decision = AppealDecision.OVER →
        ((Rationale.roiExceedsThreshold rv 2 ∈ (make_appeal_decision i).primary_rationale) ↔
          (rv ≠ 0 ∧ 2 < rv))) ∧
      ((make_appeal_decision i).decision = AppealDecision.OVER →
        ((RiskFactor.roiBelowThreshold rv 2 ∈ (make_appeal_decision i).risk_factors) ↔
          (rv ≠ 0 ∧ ¬ 2 < rv))) ∧
      ((make_appeal_decision i).decision = AppealDecision.FAIR →
        ((SupportingFactor.appealCouldStillProvideRoi rv ∈
            (make_appeal_decision i).supporting_factors) ↔
          (rv ≠ 0 ∧ 2 < rv ∧ i.min_savings_threshold < annualTaxSavings i))) := by
  have hroi : expectedRoi i = some (quantize2 ((annualTaxSavings i * i.appeal_horizon_years -
      totalCosts i) / totalCosts i * 100)) := by
    unfold expectedRoi
    rw [if_pos hc]
  set rv := quantize2 ((annualTaxSavings i * (i.appeal_horizon_years : ℚ) - totalCosts i) /
    totalCosts i * 100) with hrv
  have hgd : (expectedRoi i).getD 0 = rv := by
    rw [hroi]
    rfl
  have hra : roiAbove i = (decide (rv ≠ 0) && decide ((2:ℚ) < rv)) := by
    unfold roiAbove
    rw [hroi, ht]
  have htr : roiTruthy (expectedRoi i) = decide (rv ≠ 0) := by
    rw [hroi]
    rfl
  have hbiff : roiAbove i = true ↔ (rv ≠ 0 ∧ 2 < rv) := by
    rw [hra]
    simp [Bool.and_eq_true, decide_eq_true_eq]
  refine ⟨rv, hroi, rfl, ?_, ?_, ?_⟩
  · intro hO
    have hd : decision i = AppealDecision.OVER := hO
    have hP : ¬ assessmentRatio i < 9/10 := by
      intro hp
      rw [(decision_eq_under_iff i).mpr hp] at hd
      exact AppealDecision.noConfusion hd
    have hQ : ¬ (assessmentRatio i ≤ 1 + i.jurisdiction_priors.cod_target ∧ WithinBand i) := by
      intro hq
      unfold decision at hd
      rw [if_neg hP, if_pos hq] at hd
      exact AppealDecision.noConfusion hd
    show Rationale.roiExceedsThreshold rv 2 ∈ branchPrimary i ↔ (rv ≠ 0 ∧ 2 < rv)
    unfold branchPrimary
    rw [if_neg hP, if_neg hQ, hgd, ht]
    cases hbool : roiAbove i with
    | true =>
      have hz := hbiff.mp hbool
      by_cases hw : WithinBand i <;> simp [hbool, hw, hz]
    | false =>
      have hz : ¬ (rv ≠ 0 ∧ 2 < rv) := by
        intro hzz
        rw [hbiff.mpr hzz] at hbool
        exact Bool.noConfusion hbool
      by_cases hw : WithinBand i <;> simp [hbool, hw, hz]
  · intro hO
    have hd : decision i = AppealDecision.OVER := hO
    have hP : ¬ assessmentRatio i < 9/10 := by
      intro hp
      rw [(decision_eq_under_iff i).mpr hp] at hd
      exact AppealDecision.noConfusion hd
    have hQ : ¬ (assessmentRatio i ≤ 1 + i.jurisdiction_priors.cod_target ∧ WithinBand i) := by
      intro hq
      unfold decision at hd
      rw [if_neg hP, if_pos hq] at hd
      exact AppealDecision.noConfusion hd
    show RiskFactor.roiBelowThreshold rv 2 ∈ branchRisks i ++ generalRisks i ↔
      (rv ≠ 0 ∧ ¬ 2 < rv)
    unfold branchRisks generalRisks
    rw [if_neg hP, if_neg hQ, hgd, ht, htr]
    cases hbool : roiAbove i with
    | true =>
      have hz := hbiff.mp hbool
      simp [hbool, mem_ite_iff, hz.2]
    | false =>
      have hz : ¬ (rv ≠ 0 ∧ 2 < rv) := by
        intro hzz
        rw [hbiff.mpr hzz] at hbool
        exact Bool.noConfusion hbool
      by_cases hzz : rv = 0
      · simp [hbool, mem_ite_iff, hzz]
      · have hle : rv ≤ 2 := not_lt.mp fun hgt => hz ⟨hzz, hgt⟩
        simp [hbool, mem_ite_iff, hzz, hle, not_lt]
  · intro hF
    have hd : decision i = AppealDecision.FAIR := hF
    have hP : ¬ assessmentRatio i < 9/10 := by
      intro hp
      rw [(decision_eq_under_iff i).mpr hp] at hd
      exact AppealDecision.noConfusion hd
    have hQ : assessmentRatio i ≤ 1 + i.jurisdiction_priors.cod_target ∧ WithinBand i := by
      by_contra hq
      unfold decision at hd
      rw [if_neg hP, if_neg hq] at hd
      exact AppealDecision.noConfusion hd
    have hov : overSupportExtras i = [] := by
      have hne : ¬ decision i = AppealDecision.OVER := by
        rw [hd]
        simp
      unfold overSupportExtras
      rw [if_neg hne]
    have hfw : fairAppealWorthwhile i = true ↔
        (rv ≠ 0 ∧ 2 < rv ∧ i.min_savings_threshold < annualTaxSavings i) := by
      unfold fairAppealWorthwhile
      rw [hra]
      simp [Bool.and_eq_true, decide_eq_true_eq, and_assoc]
    show SupportingFactor.appealCouldStillProvideRoi rv ∈
      branchSupport i ++ overSupportExtras i ↔
      (rv ≠ 0 ∧ 2 < rv ∧ i.min_savings_threshold < annualTaxSavings i)
    unfold branchSupport
    rw [if_neg hP, if_pos hQ, hgd, hov, List.append_nil]
    cases hbool : fairAppealWorthwhile i with
    | true =>
      have hz := hfw.mp hbool
      simp [hbool, hz]
    | false =>
      have hz : ¬ (rv ≠ 0 ∧ 2 < rv ∧ i.min_savings_threshold < annualTaxSavings i) := by
        intro hzz
        rw [hfw.mpr hzz] at hbool
        exact Bool.noConfusion hbool
      simp [hbool, hz]

/-- Counterexample for C4: at `dIn4` the expected ROI is 46.25%, strictly
between 2% and 200%; the OVER decision nevertheless lists the
exceeds-threshold rationale (the code compares the percentage against 2.0
directly) and lists no below-threshold ROI risk factor, contradicting the
claim's 200% reading on both counts. -/
theorem c4_cex : dIn4.Valid ∧
    (make_appeal_decision dIn4).decision = AppealDecision.OVER ∧
    (make_appeal_decision dIn4).expected_roi = some (185/4) ∧
    (185:ℚ)/4 < 200 ∧
    Rationale.roiExceedsThreshold (185/4) 2 ∈ (make_appeal_decision dIn4).primary_rationale ∧
    ∀ r t, RiskFactor.roiBelowThreshold r t ∉ (make_appeal_decision dIn4).risk_factors := by
  have hratio : assessmentRatio dIn4 = 13/10 := by
    norm_num [assessmentRatio, dIn4, dIn1]
  have hw : ¬ WithinBand dIn4 := by
    norm_num [WithinBand, dIn4, dIn1, confA]
  have hP : ¬ assessmentRatio dIn4 < 9/10 := by
    rw [hratio]
    norm_num
  have hQ : ¬ (assessmentRatio dIn4 ≤ 1 + dIn4.jurisdiction_priors.cod_target ∧
      WithinBand dIn4) := fun hq => hw hq.2
  have hsav : annualTaxSavings dIn4 = 4875 := by
    norm_num [annualTaxSavings, reducedAssessment, dIn4, dIn1, jurA, max_def]
  have hcost : totalCosts dIn4 = 10000 := by
    norm_num [totalCosts, dIn4, dIn1]
  have hexpr : (annualTaxSavings dIn4 * (dIn4.appeal_horizon_years : ℚ) - totalCosts dIn4) /
      totalCosts dIn4 * 100 = 185/4 := by
    rw [hsav, hcost]
    norm_num [dIn4, dIn1]
  have hroi : expectedRoi dIn4 = some (185/4) := by
    unfold expectedRoi
    rw [if_pos (by rw [hcost]; norm_num), hexpr]
    congr 1
    exact quantize2_eq_of (n := 4625) (by norm_num) (by norm_num) (by norm_num) (by norm_num)
  have hthr : dIn4.min_roi_threshold = 2 := by norm_num [dIn4, dIn1]
  have hminsav : dIn4.min_savings_threshold = 1000 := by norm_num [dIn4, dIn1]
  have hra : roiAbove dIn4 = true := by
    unfold roiAbove
    rw [hroi, hthr]
    norm_num [Bool.and_eq_true, decide_eq_true_eq]
  have hdec : (make_appeal_decision dIn4).decision = AppealDecision.OVER := by
    show decision dIn4 = AppealDecision.OVER
    unfold decision
    rw [if_neg hP, if_neg hQ]
  have hmem : Rationale.roiExceedsThreshold (185/4) 2 ∈
      (make_appeal_decision dIn4).primary_rationale := by
    show _ ∈ branchPrimary dIn4
    unfold branchPrimary
    rw [if_neg hP, if_neg hQ]
    simp [hra, hw, hthr, hroi]
  have hsp : successProbability dIn4 = 61/100 := by
    norm_num [successProbability, WithinBand, assessmentRatio, dIn4, dIn1, confA, jurA,
      min_def, max_def]
  have hrisk : (make_appeal_decision dIn4).risk_factors = [] := by
    show branchRisks dIn4 ++ generalRisks dIn4 = []
    have h1 : branchRisks dIn4 = [] := by
      unfold branchRisks
      rw [if_neg hP, if_neg hQ]
      norm_num [hra, hsav, hminsav]
    have h2 : generalRisks dIn4 = [] := by
      unfold generalRisks
      have hgr : dIn4.confidence_result.reliability_grade = Grade.A := by
        norm_num [dIn4, dIn1, confA]
      rw [hgr, hsp]
      norm_num
      exact ⟨fun hh => Grade.noConfusion hh, fun hh => Grade.noConfusion hh⟩
    rw [h1, h2]
    rfl
  refine ⟨?_, hdec, hroi, by norm_num, hmem, ?_⟩
  · norm_num [DecisionInput.Valid, ConfidenceResult.Valid, JurisdictionPriors.Valid,
      dIn4, dIn1, confA, jurA]
  · intro r t hh
    rw [hrisk] at hh
    exact absurd hh (List.not_mem_nil _)

/-- Witness for C4 at `dIn1` (valid, positive costs, default threshold). -/
theorem c4_witness : dIn1.Valid ∧ 0 < totalCosts dIn1 ∧ dIn1.min_roi_threshold = 2 ∧
    (∃ rv, (make_appeal_decision dIn1).expected_roi = some rv ∧
      rv = quantize2 ((annualTaxSavings dIn1 * dIn1.appeal_horizon_years - totalCosts dIn1) /
        totalCosts dIn1 * 100) ∧
      ((make_appeal_decision dIn1).decision = AppealDecision.OVER →
        ((Rationale.roiExceedsThreshold rv 2 ∈ (make_appeal_decision dIn1).primary_rationale) ↔
          (rv ≠ 0 ∧ 2 < rv))) ∧
      ((make_appeal_decision dIn1).decision = AppealDecision.OVER →
        ((RiskFactor.roiBelowThreshold rv 2 ∈ (make_appeal_decision dIn1).risk_factors) ↔
          (rv ≠ 0 ∧ ¬ 2 < rv))) ∧
      ((make_appeal_decision dIn1).decision = AppealDecision.FAIR →
        ((SupportingFactor.appealCouldStillProvideRoi rv ∈
            (make_appeal_decision dIn1).supporting_factors) ↔
          (rv ≠ 0 ∧ 2 < rv ∧ dIn1.min_savings_threshold < annualTaxSavings dIn1)))) :=
  ⟨by norm_num [DecisionInput.Valid, ConfidenceResult.Valid, JurisdictionPriors.Valid,
      dIn1, confA, jurA],
   by norm_num [totalCosts, dIn1],
   by norm_num [dIn1],
   c4_roi_threshold_in_percent dIn1
     (by norm_num [DecisionInput.Valid, ConfidenceResult.Valid, JurisdictionPriors.Valid,
        dIn1, confA, jurA])
     (by norm_num [totalCosts, dIn1])
     (by norm_num [dIn1])⟩

end Charly
